import Mathlib

/-!
Verification development for the `glue` repository's S3 streaming copy engine
(`src/s3_cross_copy.py`).  The Python functions are shallowly embedded as Lean
definitions over explicit environments: every storage-service call the code can
make is answered by an `S3Env` oracle, and each run also produces the list of
service calls it issued, so that claims about which requests were made (and in
which order) can be stated and proved.
-/

set_option maxHeartbeats 1000000

namespace Glue

/-- One storage-service request issued by `copy_one_object`
(s3_cross_copy.py lines 128, 152, 160, 181, 190/211/224, 216, 233). -/
inductive S3Call where
  | headSource
  | putObjectEmpty
  | createMultipart
  | uploadPart (n : Nat) (size : Nat)
  | abortMultipart
  | completeMultipart (partNums : List Nat)
  | headDest
deriving DecidableEq, Repr

/-- The error outcomes of `copy_one_object`.  Each constructor corresponds to
one `raise` site in s3_cross_copy.py: `srcHeadFailed` (line 131),
`putEmptyFailed` (line 154), `createFailed` (line 163), `getObjectFailed`
(line 172 raising through the outer handler), `partUploadFailed` (line 193,
the message carries only the part number), `abortFailed` (an
`abort_multipart_upload` exception escaping the unprotected call at line 190
or 211 and re-raised by the outer handler at line 229), `emptyStream`
(line 214), `completeFailed` (line 216 raising through the outer handler),
`destHeadFailed` (line 236), `sizeMismatch` (line 239). -/
inductive CopyError where
  | srcHeadFailed
  | putEmptyFailed
  | createFailed
  | getObjectFailed
  | partUploadFailed (partNum : Nat)
  | abortFailed
  | emptyStream
  | completeFailed
  | destHeadFailed
  | sizeMismatch (src dest : Nat)
deriving DecidableEq, Repr

/-- Oracle answering the storage calls of one `copy_one_object` invocation:
`srcSize` is the `head_object` answer (`none` = ClientError), `chunks` are the
byte counts returned by successive `body.read(part_bytes)` calls (the loop
stops at the end of the list or at a zero read), and the `Ok` fields tell
whether the corresponding service call succeeds.  `uploadPartOk` is indexed by
part number; `destSize` is the verification `head_object` answer. -/
structure S3Env where
  srcSize : Option Nat
  chunks : List Nat
  putEmptyOk : Bool
  createOk : Bool
  getOk : Bool
  uploadPartOk : Nat → Bool
  abortOk : Bool
  completeOk : Bool
  destSize : Option Nat

/-- The upload loop of `copy_one_object` (s3_cross_copy.py lines 175-196):
read a chunk, stop on an empty read, upload it as part `pn`, collect the part
number.  On an upload failure the code calls `abort_multipart_upload` outside
any protective handler (line 190): if that abort succeeds the loop fails with
`partUploadFailed pn` (line 193); if the abort itself raises, its error
escapes and replaces the part-upload error (`abortFailed`).  Returns the
result (part numbers and bytes uploaded) and the calls issued. -/
def uploadChunks (env : S3Env) (chunks : List Nat) (pn : Nat) :
    Except CopyError (List Nat × Nat) × List S3Call :=
  match chunks with
  | [] => (.ok ([], 0), [])
  | c :: rest =>
    if c = 0 then (.ok ([], 0), [])
    else if env.uploadPartOk pn then
      let pr := uploadChunks env rest (pn + 1)
      (match pr.1 with
       | .ok (parts, b) => .ok (pn :: parts, c + b)
       | .error e => .error e,
       .uploadPart pn c :: pr.2)
    else if env.abortOk then
      (.error (.partUploadFailed pn), [.uploadPart pn c, .abortMultipart])
    else
      (.error .abortFailed, [.uploadPart pn c, .abortMultipart])

/-- `copy_one_object` (s3_cross_copy.py lines 109-242).  Head the source; a
zero-byte object is written with a single `put_object` and the function
returns (lines 150-156); otherwise create a multipart upload, run the chunk
loop, abort-and-fail on an empty stream (lines 210-214), complete the upload
(line 216), and verify the destination size (lines 231-242).  Any exception
escaping the try block makes the outer handler issue one additional
best-effort abort whose own failure is swallowed (lines 222-229).  The Python
function returns `None` on success, hence the `Unit` payload; the second
component is the list of service calls issued. -/
def copy_one_object (env : S3Env) : Except CopyError Unit × List S3Call :=
  match env.srcSize with
  | none => (.error .srcHeadFailed, [.headSource])
  | some total =>
    if total = 0 then
      (if env.putEmptyOk then .ok () else .error .putEmptyFailed,
       [.headSource, .putObjectEmpty])
    else if !env.createOk then
      (.error .createFailed, [.headSource, .createMultipart])
    else if !env.getOk then
      (.error .getObjectFailed, [.headSource, .createMultipart, .abortMultipart])
    else
      let pr := uploadChunks env env.chunks 1
      let tr := S3Call.headSource :: S3Call.createMultipart :: pr.2
      match pr.1 with
      | .error e => (.error e, tr ++ [.abortMultipart])
      | .ok (parts, _bytesDone) =>
        if parts = [] then
          (if env.abortOk then .error .emptyStream else .error .abortFailed,
           tr ++ [.abortMultipart, .abortMultipart])
        else if !env.completeOk then
          (.error .completeFailed, tr ++ [.completeMultipart parts, .abortMultipart])
        else
          match env.destSize with
          | none =>
            (.error .destHeadFailed, tr ++ [.completeMultipart parts, .headDest])
          | some d =>
            (if d = total then .ok () else .error (.sizeMismatch total d),
             tr ++ [.completeMultipart parts, .headDest])

/-- The list `start, start+1, ..., start+n-1`, used for expected part numbers. -/
def natSeq (start : Nat) : Nat → List Nat
  | 0 => []
  | n + 1 => start :: natSeq (start + 1) n

/-- The chunk sizes produced by streaming a `size`-byte object through
`body.read(c)` (s3_cross_copy.py line 176): `ceil(size / c)` reads, each of
`c` bytes except a shorter final one.  This is the botocore `StreamingBody`
contract: a read returns the full requested amount except at end of stream. -/
def readChunks (size c : Nat) : List Nat :=
  (natSeq 0 ((size + c - 1) / c)).map fun i => min c (size - i * c)

/-- The part number carried by an `uploadPart` call, if any. -/
def partNumOf : S3Call → Option Nat
  | .uploadPart n _ => some n
  | _ => none

/-- Part numbers passed to `upload_part`, in issue order, within a call trace. -/
def partNumsOf (tr : List S3Call) : List Nat := tr.filterMap partNumOf

/-- Number of `abort_multipart_upload` requests in a call trace. -/
def numAborts (tr : List S3Call) : Nat :=
  (tr.filter fun c => match c with | .abortMultipart => true | _ => false).length

/-- Python `s.lstrip("/")`: drop every leading forward slash. -/
def lstripSlash : List Char → List Char
  | [] => []
  | c :: rest => if c = '/' then lstripSlash rest else c :: rest

/-- Python `s.rstrip("/")`: drop every trailing forward slash. -/
def rstripSlash (s : List Char) : List Char :=
  (lstripSlash s.reverse).reverse

/-- The normalisation `if p: p = p + "/"` applied after an rstrip
(s3_cross_copy.py lines 266-267 and 304-305). -/
def addSlash (s : List Char) : List Char :=
  if s = [] then [] else s ++ ['/']

/-- Python `s.strip()`: drop surrounding whitespace. -/
def stripWs (s : List Char) : List Char :=
  ((s.dropWhile Char.isWhitespace).reverse.dropWhile Char.isWhitespace).reverse

/-- Python `s.replace(pat, "", 1)`: remove the first occurrence of `pat`. -/
def removeFirstOcc (pat : List Char) : List Char → List Char
  | [] => []
  | c :: rest =>
    if pat.isPrefixOf (c :: rest) then (c :: rest).drop pat.length
    else c :: removeFirstOcc pat rest

/-- `parse_s3_url` (s3_cross_copy.py lines 86-92): strip whitespace, remove the
first occurrence of the `s3://` scheme, and split at the first slash into
bucket and key; the key has leading slashes stripped. -/
def parse_s3_url (url : List Char) : List Char × List Char :=
  let u := removeFirstOcc ['s', '3', ':', '/', '/'] (stripWs url)
  match u.findIdx? (fun c => c = '/') with
  | none => (u, [])
  | some i => (u.take i, lstripSlash (u.drop (i + 1)))

/-- The destination-key computation of `main` (s3_cross_copy.py lines 261-267
and 303-320) as a pure function of the source key, the raw source-URI key
part, the configured base, and the raw destination-URI key part:
normalise the destination and listing prefixes, strip the base from the
listing prefix to get the destination subpath, take the source key relative
to the listing prefix, and concatenate. -/
def destKeyFor (srcKey pfxRaw basePfx destRaw : List Char) : List Char :=
  let destPfx := addSlash (rstripSlash destRaw)
  let listPfx := addSlash (rstripSlash pfxRaw)
  let pre := rstripSlash listPfx
  let destSub0 :=
    if !basePfx.isEmpty && basePfx.isPrefixOf pre then
      lstripSlash (pre.drop basePfx.length)
    else pre
  let destSub := if destSub0 = [] then [] else rstripSlash destSub0 ++ ['/']
  let rel := if pre = [] then srcKey else lstripSlash (srcKey.drop pre.length)
  if destSub ≠ [] then destPfx ++ destSub ++ rel
  else if destPfx ≠ [] then destPfx ++ rel
  else rel

/-- `list_all_objects` (s3_cross_copy.py lines 95-106) over its pagination:
the paginator yields a sequence of pages, each either a key list or a
ClientError; the Python loop accumulates every page's keys and any page
failure raises out of the function, so the result is the concatenation of all
pages or an error, never a truncated key list. -/
def list_all_objects : List (Except Unit (List (List Char))) → Except Unit (List (List Char))
  | [] => .ok []
  | .error e :: _ => .error e
  | .ok ks :: rest =>
    match list_all_objects rest with
    | .error e => .error e
    | .ok tail => .ok (ks ++ tail)

/-- An observable side effect of the task-planning loop of `main`: a
network listing request for (bucket, listing-prefix) was issued. -/
inductive PlanEvent where
  | listedObjects (bucket pfx : List Char)
deriving DecidableEq, Repr

/-- The planning loop of `main` (s3_cross_copy.py lines 291-321): for each
source URI in order, parse it; an empty bucket or a bucket differing from the
first URI's bucket terminates the run with exit code 1 (lines 294-300); the
`sys.exit` fires only when the *current* URI mismatches, after earlier URIs
were already listed.  Otherwise list the objects under the normalised listing
prefix (`listFn` models `list_all_objects`; a listing failure propagates to
the outer handler of `main`, exit code 1) and extend the task list with the
mapped key pairs.  Returns the tasks or the exit code, plus the listing
requests performed. -/
def planLoop (listFn : List Char → List Char → Except Unit (List (List Char)))
    (basePfx destRaw : List Char) :
    List (List Char) → Option (List Char) → List (List Char × List Char) →
    List PlanEvent → Except Nat (List (List Char × List Char)) × List PlanEvent
  | [], _, tasks, evs => (.ok tasks, evs)
  | uri :: rest, srcBucket, tasks, evs =>
    let p := parse_s3_url uri
    if p.1 = [] then (.error 1, evs)
    else if srcBucket.getD p.1 ≠ p.1 then (.error 1, evs)
    else
      let listPfx := addSlash (rstripSlash p.2)
      match listFn p.1 listPfx with
      | .error _ => (.error 1, evs ++ [.listedObjects p.1 listPfx])
      | .ok keys =>
        planLoop listFn basePfx destRaw rest (some p.1)
          (tasks ++ keys.map fun k => (k, destKeyFor k p.2 basePfx destRaw))
          (evs ++ [.listedObjects p.1 listPfx])

/-- Task planning of `main` starting from no source bucket, no tasks and no
events (s3_cross_copy.py lines 287-321). -/
def planTasks (listFn : List Char → List Char → Except Unit (List (List Char)))
    (basePfx destRaw : List Char) (uris : List (List Char)) :
    Except Nat (List (List Char × List Char)) × List PlanEvent :=
  planLoop listFn basePfx destRaw uris none [] []

/-- The result-collection loop of `main` (s3_cross_copy.py lines 379-380):
`future.result()` in completion order re-raises the first failure and stops
inspecting further results. -/
def collectResults : List (Except String Unit) → Except String Unit
  | [] => .ok ()
  | .ok _ :: rest => collectResults rest
  | .error e :: _ => .error e

/-- What a batch run makes observable at the end: how many tasks actually
executed, which error texts were surfaced, the aggregate counts summary (the
code never prints one, so this is always `none`), and the exit code. -/
structure BatchOutcome where
  executed : Nat
  reported : List String
  summary : Option (Nat × Nat × Nat)
  code : Nat
deriving DecidableEq, Repr

/-- The batch execution of `main` (s3_cross_copy.py lines 376-405) over the
per-task results in completion order.  All futures are submitted up front
(line 377) and the `ThreadPoolExecutor` context exit waits for queued and
running tasks without cancelling them, so every task executes even when an
earlier result raised; the first failure propagates to the outer handler
which prints that one error and exits 1 (lines 401-405).  No total or
succeeded or failed counts are ever printed. -/
def runBatch (results : List (Except String Unit)) : BatchOutcome :=
  ⟨results.length,
   match collectResults results with | .ok _ => [] | .error e => [e],
   none,
   match collectResults results with | .ok _ => 0 | .error _ => 1⟩

/-- Input to one whole run of `main`: whether the confirmation prompt was
answered y or yes (line 344), whether a KeyboardInterrupt arrived during the
result-collection loop before any failing result was observed (and how many
futures were done at that moment, line 382), and the per-task results in
completion order. -/
structure MainEnv where
  promptYes : Bool
  interruptDone : Option Nat
  results : List (Except String Unit)

/-- The four terminal outcomes of `main`: the normal summary line with exit 0
(line 409), declining the confirmation prompt with exit 0 (lines 345-349), a
KeyboardInterrupt with `done` of `total` tasks completed and exit 1
(lines 388-395), and a task error printed with exit 1 (lines 401-405). -/
inductive RunOutcome where
  | success
  | promptCancelled
  | interrupted (done total : Nat)
  | failed (e : String)
deriving DecidableEq, Repr

/-- The terminal outcome of `main` (s3_cross_copy.py lines 344-409).  A
declined prompt cancels before any copy; a KeyboardInterrupt with every
future already done collects all results and ends as success or failure
(lines 383-387), otherwise reports `interrupted done total` (lines 388-395);
without an interrupt, the first failing result (if any) decides failure. -/
def runMain (env : MainEnv) : RunOutcome :=
  if !env.promptYes then .promptCancelled
  else
    match env.interruptDone with
    | some d =>
      if d = env.results.length then
        match collectResults env.results with
        | .ok _ => .success
        | .error e => .failed e
      else .interrupted d env.results.length
    | none =>
      match collectResults env.results with
      | .ok _ => .success
      | .error e => .failed e

/-- The process exit code of each terminal outcome, read off the `sys.exit`
sites of `main`: line 409 falls through (0), line 349 exits 0, line 387
exits 0, line 395 exits 1, line 405 exits 1. -/
def exitCode : RunOutcome → Nat
  | .success => 0
  | .promptCancelled => 0
  | .interrupted _ _ => 1
  | .failed _ => 1

/-- A line printed by the progress or heartbeat logic inside the chunk loop of
`copy_one_object`: the still-copying heartbeat (line 200) or the periodic
progress line (line 206), each carrying its wall-clock second and the bytes
done so far. -/
inductive LogLine where
  | stillCopying (t b : Nat)
  | progressLine (t b : Nat)
deriving DecidableEq, Repr

/-- Timestamp of a log line. -/
def lineTime : LogLine → Nat
  | .stillCopying t _ => t
  | .progressLine t _ => t

/-- Whether a log line is the still-copying heartbeat. -/
def isStill : LogLine → Bool
  | .stillCopying _ _ => true
  | _ => false

/-- HEARTBEAT_SEC (s3_cross_copy.py line 47). -/
def HEARTBEAT_SEC : Nat := 30

/-- PROGRESS_INTERVAL_SEC (s3_cross_copy.py line 46). -/
def PROGRESS_INTERVAL_SEC : Nat := 2

/-- The timing logic of the chunk loop of `copy_one_object`
(s3_cross_copy.py lines 195-208), over the completion times and sizes of the
successive chunks.  Both checks run only after a chunk has been read and
uploaded: if at least `hbSec` seconds passed since the last heartbeat mark, a
still-copying line is printed and the mark reset; then, if at least `prSec`
seconds passed since the last progress line, a progress line is printed and
both marks reset.  Nothing at all is printed between chunk completions. -/
def progressLoop (hbSec prSec : Nat) :
    Nat → Nat → Nat → List (Nat × Nat) → List LogLine
  | _, _, _, [] => []
  | lastHb, lastPr, bytes, (t, sz) :: rest =>
    let b2 := bytes + sz
    if lastHb + hbSec ≤ t then
      if lastPr + prSec ≤ t then
        .stillCopying t b2 :: .progressLine t b2 ::
          progressLoop hbSec prSec t t b2 rest
      else
        .stillCopying t b2 :: progressLoop hbSec prSec t lastPr b2 rest
    else
      if lastPr + prSec ≤ t then
        .progressLine t b2 :: progressLoop hbSec prSec t t b2 rest
      else
        progressLoop hbSec prSec lastHb lastPr b2 rest

/-- The log lines emitted during one object copy that starts at `start`
(both timing marks are initialised to the loop start, lines 167-168) and
whose chunks complete at the given times with the given sizes. -/
def copyLog (start : Nat) (chunks : List (Nat × Nat)) : List LogLine :=
  progressLoop HEARTBEAT_SEC PROGRESS_INTERVAL_SEC start start 0 chunks

/-- Formalisation of the heartbeat claim: during a copy running from `start`
until `endT` (the moment the final read returns), every window of at least
`HEARTBEAT_SEC` seconds containing no chunk completion sees a still-copying
line emitted at or after the window start. -/
def heartbeatClaim (start endT : Nat) (chunks : List (Nat × Nat)) : Prop :=
  ∀ a b, start ≤ a → b ≤ endT → a + HEARTBEAT_SEC ≤ b →
    (∀ c ∈ chunks, c.1 ≤ a ∨ b < c.1) →
    ∃ l ∈ copyLog start chunks, isStill l = true ∧ a ≤ lineTime l

/-- An environment in which every storage call succeeds for a 2-byte object
copied with 1-byte parts. -/
def envOkA : S3Env :=
  ⟨some 2, readChunks 2 1, true, true, true, fun _ => true, true, true, some 2⟩

/-- An environment in which every storage call succeeds for a 3-byte object
copied with 1-byte parts. -/
def envOkB : S3Env :=
  ⟨some 3, readChunks 3 1, true, true, true, fun _ => true, true, true, some 3⟩

/-- An environment for a 5-byte object with 3-byte parts in which the upload of
part 1 fails and the abort call itself also fails. -/
def envAbortMask : S3Env :=
  ⟨some 5, readChunks 5 3, true, true, true, fun n => decide (n ≠ 1), false, true,
   some 5⟩

/-- An environment for a 10-byte object with 3-byte parts (4 parts) in which
the upload of part 2 fails and abort succeeds. -/
def envPart2Fail : S3Env :=
  ⟨some 10, readChunks 10 3, true, true, true, fun n => decide (n ≠ 2), true, true,
   some 10⟩

/-- A zero-byte source object; the destination verification probe never runs,
so its answer is irrelevant (`none`). -/
def envZero : S3Env :=
  ⟨some 0, [], true, true, true, fun _ => true, true, true, none⟩

/-- A run of 20 tasks, all succeeding, interrupted after 6 futures are done. -/
def envCancel : MainEnv :=
  ⟨true, some 6, List.replicate 20 (.ok ())⟩

/-- A run of one task whose copy fails. -/
def envFailRun : MainEnv :=
  ⟨true, none, [.error "boom"]⟩

/-- The source URI s3://a/x as a character list. -/
def uriA : List Char := ['s', '3', ':', '/', '/', 'a', '/', 'x']

/-- The source URI s3://a/y as a character list (same bucket as `uriA`). -/
def uriA2 : List Char := ['s', '3', ':', '/', '/', 'a', '/', 'y']

/-- The source URI s3://b/y as a character list (a different bucket). -/
def uriB : List Char := ['s', '3', ':', '/', '/', 'b', '/', 'y']

/-- A listing oracle that always returns the single key k. -/
def lfOk : List Char → List Char → Except Unit (List (List Char)) :=
  fun _ _ => .ok [['k']]

lemma natSeq_length (s n : Nat) : (natSeq s n).length = n := by
  induction n generalizing s with
  | zero => rfl
  | succ n ih => simp [natSeq, ih]

lemma natSeq_mem {x s n : Nat} (h : x ∈ natSeq s n) : s ≤ x ∧ x < s + n := by
  induction n generalizing s with
  | zero => simp [natSeq] at h
  | succ n ih =>
    simp only [natSeq, List.mem_cons] at h
    rcases h with rfl | h
    · omega
    · have := ih h
      omega

lemma readChunks_length (s c : Nat) : (readChunks s c).length = (s + c - 1) / c := by
  simp [readChunks, natSeq_length]

lemma readChunks_pos {s c x : Nat} (hc : 0 < c) (hx : x ∈ readChunks s c) :
    x ≠ 0 := by
  simp only [readChunks, List.mem_map] at hx
  obtain ⟨i, hi, rfl⟩ := hx
  have h1 := natSeq_mem hi
  have h2 : i + 1 ≤ (s + c - 1) / c := by omega
  have h3 : (i + 1) * c ≤ s + c - 1 := (Nat.le_div_iff_mul_le hc).mp h2
  have h4 : i * c + c ≤ s + c - 1 := by
    calc i * c + c = (i + 1) * c := by ring
    _ ≤ s + c - 1 := h3
  omega

lemma uploadChunks_ok (env : S3Env) (chunks : List Nat) (pn : Nat)
    (hpos : ∀ x ∈ chunks, x ≠ 0) (hup : ∀ n, env.uploadPartOk n = true) :
    ∃ b, (uploadChunks env chunks pn).1 = .ok (natSeq pn chunks.length, b) ∧
      partNumsOf (uploadChunks env chunks pn).2 = natSeq pn chunks.length := by
  induction chunks generalizing pn with
  | nil => exact ⟨0, rfl, rfl⟩
  | cons c rest ih =>
    have hc : c ≠ 0 := hpos c (by simp)
    obtain ⟨b, h1, h2⟩ := ih (pn + 1) (fun x hx => hpos x (by simp [hx]))
    refine ⟨c + b, ?_, ?_⟩
    · simp [uploadChunks, hc, hup pn, h1, natSeq]
    · simp [uploadChunks, hc, hup pn, partNumsOf, List.filterMap_cons, partNumOf,
        natSeq]
      simpa [partNumsOf] using h2

lemma uploadChunks_failAt (env : S3Env) (K : Nat) :
    ∀ (chunks : List Nat) (pn : Nat), (∀ x ∈ chunks, x ≠ 0) →
    pn ≤ K → K < pn + chunks.length →
    (∀ j, pn ≤ j → j < K → env.uploadPartOk j = true) →
    env.uploadPartOk K = false → env.abortOk = true →
    (uploadChunks env chunks pn).1 = .error (.partUploadFailed K) ∧
    numAborts (uploadChunks env chunks pn).2 = 1 := by
  intro chunks
  induction chunks with
  | nil =>
    intro pn _ hle hlt _ _ _
    simp at hlt
    omega
  | cons c rest ih =>
    intro pn hpos hle hlt hok hK hab
    have hc : c ≠ 0 := hpos c (by simp)
    by_cases hpn : pn = K
    · subst hpn
      simp [uploadChunks, hc, hK, hab, numAborts]
    · have hlt' : pn < K := by omega
      have hu : env.uploadPartOk pn = true := hok pn le_rfl hlt'
      have hlen : K < (pn + 1) + rest.length := by
        simp at hlt
        omega
      obtain ⟨h1, h2⟩ := ih (pn + 1) (fun x hx => hpos x (by simp [hx]))
        (by omega) hlen (fun j hj1 hj2 => hok j (by omega) hj2) hK hab
    -- the recursion result decides both components
      refine ⟨by simp [uploadChunks, hc, hu, h1], ?_⟩
      simp [uploadChunks, hc, hu, numAborts]
      simpa [numAborts] using h2

lemma lstripSlash_no_lead (s : List Char) (h : s.take 1 ≠ ['/']) :
    lstripSlash s = s := by
  cases s with
  | nil => rfl
  | cons c t =>
    have hc : ¬ c = '/' := by simpa using h
    simp [lstripSlash, hc]

/-- C6: for a zero-size source object the copy issues exactly the source head
and one whole-object empty put, never creates a multipart session, and (when
the put succeeds) returns successfully. -/
theorem c6_zero_byte_direct_put (env : S3Env) (h : env.srcSize = some 0) :
    (copy_one_object env).2 = [.headSource, .putObjectEmpty] ∧
    S3Call.createMultipart ∉ (copy_one_object env).2 ∧
    (env.putEmptyOk = true → (copy_one_object env).1 = .ok ()) := by
  refine ⟨by simp [copy_one_object, h], by simp [copy_one_object, h],
    fun hp => by simp [copy_one_object, h, hp]⟩

theorem c6_zero_byte_direct_put_witness :
    (copy_one_object envZero).2 = [.headSource, .putObjectEmpty] ∧
    S3Call.createMultipart ∉ (copy_one_object envZero).2 ∧
    (envZero.putEmptyOk = true → (copy_one_object envZero).1 = .ok ()) :=
  c6_zero_byte_direct_put envZero rfl

/-- C1 counterexample: two fully successful copies of objects of different
sizes (2 and 3 bytes) produce identical return values, so the return value of
a successful `copy_one_object` does not carry the number of bytes copied (the
Python function returns None; the byte count is only logged). -/
theorem c1_returns_no_byte_count :
    (copy_one_object envOkA).1 = .ok () ∧ (copy_one_object envOkB).1 = .ok () ∧
    (copy_one_object envOkA).1 = (copy_one_object envOkB).1 ∧
    envOkA.srcSize = some 2 ∧ envOkB.srcSize = some 3 :=
  ⟨rfl, rfl, rfl, rfl, rfl⟩

/-- C1 amended: on the multipart path, once the transfer itself has gone
through (create, get, all part uploads with at least one part, complete), the
copy succeeds exactly when the destination size probed at verification equals
the source size probed at the start, and on a mismatch it fails with the
size-mismatch error; on success it returns unit (no byte count). -/
theorem c1_success_iff_size_match (env : S3Env) (S d b : Nat) (parts : List Nat)
    (hs : env.srcSize = some S) (hS : 0 < S)
    (hc : env.createOk = true) (hg : env.getOk = true)
    (hu : (uploadChunks env env.chunks 1).1 = .ok (parts, b)) (hp : parts ≠ [])
    (hcm : env.completeOk = true) (hd : env.destSize = some d) :
    ((copy_one_object env).1 = .ok () ↔ d = S) ∧
    (d ≠ S → (copy_one_object env).1 = .error (.sizeMismatch S d)) := by
  have hS0 : ¬ S = 0 := by omega
  by_cases hdd : d = S <;>
    simp [copy_one_object, hs, hS0, hc, hg, hu, hp, hcm, hd, hdd]

theorem c1_success_iff_size_match_witness :
    ((copy_one_object envOkA).1 = .ok () ↔ 2 = 2) ∧
    ((2 : Nat) ≠ 2 → (copy_one_object envOkA).1 = .error (.sizeMismatch 2 2)) :=
  c1_success_iff_size_match envOkA 2 2 2 [1, 2] rfl (by decide) rfl rfl rfl
    (by decide) rfl rfl

/-- C2: for a multipart copy of an object of size S with chunk size C in which
every part upload goes through, the part numbers passed to `upload_part` are
exactly 1, 2, ..., ceil(S / C) in order, and the part list submitted to
`complete_multipart_upload` is exactly that same sequence. -/
theorem c2_part_numbers_contiguous (env : S3Env) (S C : Nat)
    (hS : 0 < S) (hC : 0 < C)
    (hs : env.srcSize = some S) (hch : env.chunks = readChunks S C)
    (hc : env.createOk = true) (hg : env.getOk = true)
    (hup : ∀ n, env.uploadPartOk n = true) :
    partNumsOf (copy_one_object env).2 = natSeq 1 ((S + C - 1) / C) ∧
    S3Call.completeMultipart (natSeq 1 ((S + C - 1) / C)) ∈
      (copy_one_object env).2 := by
  have hS0 : ¬ S = 0 := by omega
  have hpos : ∀ x ∈ readChunks S C, x ≠ 0 := fun x hx => readChunks_pos hC hx
  obtain ⟨b, h1, h2⟩ := uploadChunks_ok env (readChunks S C) 1 hpos hup
  rw [readChunks_length] at h1 h2
  have hN : 1 ≤ (S + C - 1) / C := by
    rw [Nat.le_div_iff_mul_le hC]
    omega
  have hne : natSeq 1 ((S + C - 1) / C) ≠ [] := by
    cases hh : (S + C - 1) / C with
    | zero => omega
    | succ n => simp [natSeq]
  rw [← hch] at h1 h2
  cases hcm : env.completeOk with
  | false =>
    constructor
    · simp [copy_one_object, hs, hS0, hc, hg, h1, hne, hcm, partNumsOf,
        List.filterMap_append, List.filterMap_cons, partNumOf]
      simpa [partNumsOf] using h2
    · simp [copy_one_object, hs, hS0, hc, hg, h1, hne, hcm]
  | true =>
    cases hdst : env.destSize with
    | none =>
      constructor
      · simp [copy_one_object, hs, hS0, hc, hg, h1, hne, hcm, hdst, partNumsOf,
          List.filterMap_append, List.filterMap_cons, partNumOf]
        simpa [partNumsOf] using h2
      · simp [copy_one_object, hs, hS0, hc, hg, h1, hne, hcm, hdst]
    | some d =>
      constructor
      · simp [copy_one_object, hs, hS0, hc, hg, h1, hne, hcm, hdst, partNumsOf,
          List.filterMap_append, List.filterMap_cons, partNumOf]
        simpa [partNumsOf] using h2
      · simp [copy_one_object, hs, hS0, hc, hg, h1, hne, hcm, hdst]

theorem c2_part_numbers_contiguous_witness :
    partNumsOf (copy_one_object envOkA).2 = natSeq 1 ((2 + 1 - 1) / 1) ∧
    S3Call.completeMultipart (natSeq 1 ((2 + 1 - 1) / 1)) ∈
      (copy_one_object envOkA).2 :=
  c2_part_numbers_contiguous envOkA 2 1 (by decide) (by decide) rfl rfl rfl rfl
    (fun _ => rfl)

/-- C3 counterexample: upload of part 1 fails and the abort call issued inside
the ClientError handler (line 190, not protected by any try) also fails; the
abort error escapes and the overall failure is the abort failure, not the
part-upload error, so an abort failure does mask the original error. -/
theorem c3_abort_failure_masks :
    (copy_one_object envAbortMask).1 = .error .abortFailed ∧
    (copy_one_object envAbortMask).1 ≠ .error (.partUploadFailed 1) := by
  have h : (copy_one_object envAbortMask).1 = .error .abortFailed := rfl
  refine ⟨h, ?_⟩
  rw [h]
  simp

/-- C3 amended: when the upload of part K fails and the inline abort call
succeeds, the copy fails with the part-upload error carrying the part number
(the error message does not carry the bytes copied so far), and exactly two
abort requests are issued: the inline one and the outer handler's best-effort
one.  The inline abort is not best-effort: only if it succeeds does the
part-upload error survive (see the counterexample for its failure). -/
theorem c3_part_failure_abort_then_error (env : S3Env) (S C K : Nat)
    (hs : env.srcSize = some S) (hS : 0 < S) (hC : 0 < C)
    (hch : env.chunks = readChunks S C)
    (hcr : env.createOk = true) (hg : env.getOk = true)
    (hok : ∀ j, 1 ≤ j → j < K → env.uploadPartOk j = true)
    (hK1 : 1 ≤ K) (hKN : K ≤ (S + C - 1) / C)
    (hKf : env.uploadPartOk K = false) (hab : env.abortOk = true) :
    (copy_one_object env).1 = .error (.partUploadFailed K) ∧
    numAborts (copy_one_object env).2 = 2 := by
  have hS0 : ¬ S = 0 := by omega
  have hpos : ∀ x ∈ readChunks S C, x ≠ 0 := fun x hx => readChunks_pos hC hx
  have hlen : K < 1 + (readChunks S C).length := by
    rw [readChunks_length]
    omega
  obtain ⟨h1, h2⟩ := uploadChunks_failAt env K (readChunks S C) 1 hpos hK1 hlen
    hok hKf hab
  rw [← hch] at h1 h2
  constructor
  · simp [copy_one_object, hs, hS0, hcr, hg, h1]
  · simp [copy_one_object, hs, hS0, hcr, hg, h1, numAborts, List.filter_append]
    simpa [numAborts] using h2

theorem c3_part_failure_abort_then_error_witness :
    (copy_one_object envPart2Fail).1 = .error (.partUploadFailed 2) ∧
    numAborts (copy_one_object envPart2Fail).2 = 2 :=
  c3_part_failure_abort_then_error envPart2Fail 10 3 2 rfl (by decide) (by decide)
    rfl rfl rfl
    (fun j hj1 hj2 => by
      have hj : j = 1 := by omega
      subst hj
      rfl)
    (by decide) (by decide) rfl rfl

/-- C4 counterexample: a batch whose two tasks both fail still executes both
tasks, but the run surfaces only the first failure, prints no aggregate
total/succeeded/failed summary at all, and the second task's error is never
reported. -/
theorem c4_no_aggregate_summary :
    (runBatch [.error "e1", .error "e2"]).executed = 2 ∧
    (runBatch [.error "e1", .error "e2"]).summary = none ∧
    (runBatch [.error "e1", .error "e2"]).reported = ["e1"] ∧
    "e2" ∉ (runBatch [.error "e1", .error "e2"]).reported := by
  refine ⟨rfl, rfl, rfl, ?_⟩
  simp [runBatch, collectResults]

/-- C4 amended: a task failure never prevents the remaining tasks from
executing (every submitted task runs to completion, because all futures are
submitted up front and the pool shutdown waits for them), but per-task
failures are not collected: when some task fails, only the first failure in
completion order is surfaced, the exit code is 1, and no aggregate
total/succeeded/failed summary is produced. -/
theorem c4_all_tasks_run_first_error_reported
    (results : List (Except String Unit)) (e : String)
    (h : collectResults results = .error e) :
    (runBatch results).executed = results.length ∧
    (runBatch results).summary = none ∧
    (runBatch results).reported = [e] ∧
    (runBatch results).code = 1 := by
  simp [runBatch, h]

theorem c4_all_tasks_run_first_error_reported_witness :
    (runBatch [.ok (), .error "x"]).executed = [Except.ok (),
      Except.error "x"].length ∧
    (runBatch [.ok (), .error "x"]).summary = none ∧
    (runBatch [.ok (), .error "x"]).reported = ["x"] ∧
    (runBatch [.ok (), .error "x"]).code = 1 :=
  c4_all_tasks_run_first_error_reported [.ok (), .error "x"] "x" rfl

/-- C5 counterexample: a run of 20 tasks interrupted after 6 completed ends as
`interrupted 6 20` with exit code 1, the same exit code as a failed run, and
declining the confirmation prompt exits 0, the same exit code as full
success — so the exit signal does not give cancellation a code distinct from
failure (or from success). -/
theorem c5_exit_codes_collapse :
    runMain envCancel = .interrupted 6 20 ∧
    runMain envFailRun = .failed "boom" ∧
    exitCode (runMain envCancel) = exitCode (runMain envFailRun) ∧
    exitCode (runMain ⟨false, none, []⟩) = exitCode (runMain ⟨true, none, []⟩) :=
  ⟨rfl, rfl, rfl, rfl⟩

/-- C5 amended: a mid-run cancellation is reported as `interrupted done total`
(the printed message carries how many of the total tasks completed) but exits
with code 1, identical to the exit code of a failed run; declining the prompt
exits with code 0, identical to full success.  The three outcomes are
distinguished only by their printed messages, not by exit code. -/
theorem c5_cancel_shares_failure_exit_code (env : MainEnv) (d : Nat)
    (hp : env.promptYes = true) (hi : env.interruptDone = some d)
    (hd : d ≠ env.results.length) :
    runMain env = .interrupted d env.results.length ∧
    exitCode (runMain env) = 1 ∧
    (∀ e, exitCode (.failed e) = 1) ∧
    exitCode .promptCancelled = exitCode .success := by
  refine ⟨?_, ?_, fun e => rfl, rfl⟩
  · simp [runMain, hp, hi, hd]
  · simp [runMain, hp, hi, hd, exitCode]

theorem c5_cancel_shares_failure_exit_code_witness :
    runMain envCancel = .interrupted 6 envCancel.results.length ∧
    exitCode (runMain envCancel) = 1 ∧
    (∀ e, exitCode (.failed e) = 1) ∧
    exitCode .promptCancelled = exitCode .success :=
  c5_cancel_shares_failure_exit_code envCancel 6 rfl rfl (by decide)

/-- C9 counterexample: a copy starting at second 0 whose single chunk
completes at second 1 and whose stream does not end until second 100 emits no
log line at all after second 1, even though the window from second 1 to
second 100 is far longer than the heartbeat interval and contains no chunk:
the heartbeat check only runs after a chunk completes. -/
theorem c9_stall_emits_no_heartbeat : ¬ heartbeatClaim 0 100 [(1, 5)] := by
  intro h
  have hch : ∀ c ∈ [((1 : Nat), (5 : Nat))], c.1 ≤ 1 ∨ 100 < c.1 := by
    intro c hc
    simp only [List.mem_singleton] at hc
    subst hc
    left
    exact le_refl 1
  obtain ⟨l, hl, -⟩ := h 1 100 (Nat.zero_le 1) (le_refl 100)
    (by simp [HEARTBEAT_SEC]) hch
  have hlog : copyLog 0 [(1, 5)] = [] := rfl
  rw [hlog] at hl
  exact absurd hl (List.not_mem_nil l)

/-- C9 amended: the still-copying heartbeat (and the progress line) can only
be emitted at the completion time of some chunk — during an interval with no
chunk activity nothing is printed, so a stalled transfer produces no output
until its next chunk completes; when a chunk does complete at least the
heartbeat interval after the last heartbeat mark, a still-copying line is
emitted at that completion time. -/
theorem c9_heartbeat_only_at_chunk_completion :
    (∀ hbSec prSec lastHb lastPr bytes chunks l,
       l ∈ progressLoop hbSec prSec lastHb lastPr bytes chunks →
       lineTime l ∈ chunks.map Prod.fst) ∧
    (∀ hbSec prSec lastHb lastPr bytes t sz rest, lastHb + hbSec ≤ t →
       ∃ b, LogLine.stillCopying t b ∈
         progressLoop hbSec prSec lastHb lastPr bytes ((t, sz) :: rest)) := by
  constructor
  · intro hbSec prSec lastHb lastPr bytes chunks
    induction chunks generalizing lastHb lastPr bytes with
    | nil => intro l hl; simp [progressLoop] at hl
    | cons hd tl ih =>
      intro l hl
      obtain ⟨t, sz⟩ := hd
      simp only [progressLoop] at hl
      by_cases h1 : lastHb + hbSec ≤ t <;> by_cases h2 : lastPr + prSec ≤ t <;>
          simp only [h1, h2, if_true, if_false, List.mem_cons] at hl
      · rcases hl with rfl | rfl | hl
        · simp [lineTime]
        · simp [lineTime]
        · simpa using Or.inr (by simpa using ih t t (bytes + sz) l hl)
      · rcases hl with rfl | hl
        · simp [lineTime]
        · simpa using Or.inr (by simpa using ih t lastPr (bytes + sz) l hl)
      · rcases hl with rfl | hl
        · simp [lineTime]
        · simpa using Or.inr (by simpa using ih t t (bytes + sz) l hl)
      · simpa using Or.inr (by simpa using ih lastHb lastPr (bytes + sz) l hl)
  · intro hbSec prSec lastHb lastPr bytes t sz rest h1
    by_cases h2 : lastPr + prSec ≤ t
    · exact ⟨bytes + sz, by simp [progressLoop, h1, h2]⟩
    · exact ⟨bytes + sz, by simp [progressLoop, h1, h2]⟩

theorem c9_heartbeat_only_at_chunk_completion_witness :
    lineTime (.stillCopying 40 10) ∈
      ([((1 : Nat), (5 : Nat)), (40, 5)].map Prod.fst) ∧
    ∃ b, LogLine.stillCopying 40 b ∈ progressLoop 30 2 0 0 0 [((40 : Nat), 5)] :=
  ⟨c9_heartbeat_only_at_chunk_completion.1 30 2 0 0 0 [(1, 5), (40, 5)]
      (.stillCopying 40 10) (by decide),
   c9_heartbeat_only_at_chunk_completion.2 30 2 0 0 0 40 5 [] (by decide)⟩

/-- C7: Scenario C of the spec.  For every source key under listing prefix
A/B/ (written as A/B/ followed by a remainder that does not itself begin with
a redundant slash), with base A/ and destination D/, the computed destination
key is D/B/ followed by that remainder; the mapping is a pure function of the
four inputs, so it involves no network access and mapping twice gives the
same key. -/
theorem c7_key_mapping_scenario (rest : List Char) (h : rest.take 1 ≠ ['/']) :
    destKeyFor (['A', '/', 'B', '/'] ++ rest) ['A', '/', 'B', '/'] ['A', '/']
      ['D', '/'] = ['D', '/', 'B', '/'] ++ rest := by
  have hr := lstripSlash_no_lead rest h
  simp [destKeyFor, addSlash, rstripSlash, lstripSlash, List.isPrefixOf, hr]

theorem c7_key_mapping_scenario_witness :
    destKeyFor (['A', '/', 'B', '/'] ++ ['x']) ['A', '/', 'B', '/'] ['A', '/']
      ['D', '/'] = ['D', '/', 'B', '/'] ++ ['x'] :=
  c7_key_mapping_scenario ['x'] (by decide)

/-- C8: the object lister returns the concatenation of every page's keys when
all pages succeed; if any page fails the whole listing fails (never a
truncated key set); and a listing failure during planning terminates the run
with exit code 1 before any copy task exists. -/
theorem c8_listing_complete_or_error :
    (∀ pagesOk : List (List (List Char)),
       list_all_objects (pagesOk.map .ok) = .ok pagesOk.flatten) ∧
    (∀ pre post, list_all_objects (pre ++ .error () :: post) = .error ()) ∧
    (∀ listFn basePfx destRaw uri rest,
       (parse_s3_url uri).1 ≠ [] →
       listFn (parse_s3_url uri).1 (addSlash (rstripSlash (parse_s3_url uri).2)) =
         .error () →
       (planTasks listFn basePfx destRaw (uri :: rest)).1 = .error 1) := by
  refine ⟨?_, ?_, ?_⟩
  · intro pagesOk
    induction pagesOk with
    | nil => rfl
    | cons p ps ih => simp [list_all_objects, ih]
  · intro pre post
    induction pre with
    | nil => rfl
    | cons hd tl ih =>
      cases hd with
      | error e => rfl
      | ok ks => simp [list_all_objects, ih]
  · intro listFn basePfx destRaw uri rest h1 h2
    simp [planTasks, planLoop, h1, h2]

theorem c8_listing_complete_or_error_witness :
    list_all_objects ([[['k', '1']], [['k', '2']]].map .ok) =
      .ok [['k', '1'], ['k', '2']] ∧
    list_all_objects ([.ok [['k', '1']]] ++ .error () :: []) = .error () ∧
    (planTasks (fun _ _ => .error ()) [] ['D', '/'] (uriA :: [])).1 = .error 1 :=
  ⟨c8_listing_complete_or_error.1 [[['k', '1']], [['k', '2']]],
   c8_listing_complete_or_error.2.1 [.ok [['k', '1']]] [],
   c8_listing_complete_or_error.2.2 (fun _ _ => .error ()) [] ['D', '/'] uriA []
     (by decide) rfl⟩

/-- C10 counterexample: with sources s3://a/x and s3://b/y the planning loop
performs the network listing for bucket a (the listing event is recorded)
before it ever parses the second URI, and only then exits with code 1 on the
bucket mismatch — so the run does not exit before listing any objects. -/
theorem c10_lists_before_mismatch_exit :
    (planTasks lfOk [] ['D', '/'] [uriA, uriB]).1 = .error 1 ∧
    (planTasks lfOk [] ['D', '/'] [uriA, uriB]).2 =
      [.listedObjects ['a'] ['x', '/']] :=
  ⟨rfl, rfl⟩

/-- C10 amended: if planning completes (so the copy phase can start at all),
then every configured source URI parses to one and the same bucket; a bucket
mismatch makes the run exit with code 1 during planning, before any copy
runs, but only after the URIs preceding the mismatch have already been
listed. -/
theorem c10_single_bucket_invariant
    (listFn : List Char → List Char → Except Unit (List (List Char)))
    (basePfx destRaw : List Char) (uris : List (List Char))
    (ts : List (List Char × List Char)) (evs : List PlanEvent)
    (h : planTasks listFn basePfx destRaw uris = (.ok ts, evs)) :
    ∀ u1 ∈ uris, ∀ u2 ∈ uris,
      (parse_s3_url u1).1 = (parse_s3_url u2).1 := by
  have key : ∀ (l : List (List Char)) (b : List Char)
      (tasks : List (List Char × List Char)) (evs0 : List PlanEvent)
      (ts2 : List (List Char × List Char)) (evs2 : List PlanEvent),
      planLoop listFn basePfx destRaw l (some b) tasks evs0 = (.ok ts2, evs2) →
      ∀ u ∈ l, (parse_s3_url u).1 = b := by
    intro l
    induction l with
    | nil => intro b tasks evs0 ts2 evs2 hp u hu; simp at hu
    | cons uri rl ih =>
      intro b tasks evs0 ts2 evs2 hp u hu
      simp only [planLoop] at hp
      by_cases h1 : (parse_s3_url uri).1 = []
      · rw [if_pos h1] at hp
        simp at hp
      · rw [if_neg h1] at hp
        simp only [Option.getD_some] at hp
        by_cases h2 : b = (parse_s3_url uri).1
        · subst h2
          rw [if_neg (by simp)] at hp
          cases hlf : listFn (parse_s3_url uri).1
              (addSlash (rstripSlash (parse_s3_url uri).2)) with
          | error e =>
            rw [hlf] at hp
            simp at hp
          | ok keys =>
            rw [hlf] at hp
            rcases List.mem_cons.mp hu with rfl | hu2
            · rfl
            · exact ih _ _ _ _ _ hp u hu2
        · rw [if_pos h2] at hp
          simp at hp
  cases uris with
  | nil => intro u1 hu1; simp at hu1
  | cons uri rl =>
    simp only [planTasks, planLoop] at h
    by_cases h1 : (parse_s3_url uri).1 = []
    · rw [if_pos h1] at h
      simp at h
    · rw [if_neg h1] at h
      simp only [Option.getD_none] at h
      rw [if_neg (by simp)] at h
      cases hlf : listFn (parse_s3_url uri).1
          (addSlash (rstripSlash (parse_s3_url uri).2)) with
      | error e =>
        rw [hlf] at h
        simp at h
      | ok keys =>
        rw [hlf] at h
        have hall := key rl (parse_s3_url uri).1 _ _ _ _ h
        intro u1 hu1 u2 hu2
        rcases List.mem_cons.mp hu1 with rfl | hu1' <;>
          rcases List.mem_cons.mp hu2 with rfl | hu2'
        · rfl
        · exact (hall u2 hu2').symm
        · exact hall u1 hu1'
        · exact (hall u1 hu1').trans (hall u2 hu2').symm

theorem c10_single_bucket_invariant_witness :
    (parse_s3_url uriA).1 = (parse_s3_url uriA2).1 :=
  c10_single_bucket_invariant lfOk [] ['D', '/'] [uriA, uriA2]
    [(['k'], ['D', '/', 'x', '/']), (['k'], ['D', '/', 'y', '/'])]
    [.listedObjects ['a'] ['x', '/'], .listedObjects ['a'] ['y', '/']]
    rfl uriA (by decide) uriA2 (by decide)

end Glue
